import Mathlib

/-!
Shallow embedding of the connection registry and session-routing layer of
cassandra/cqlengine/connection.py.  The Python module-level globals
(cluster, session, lazy_connect_args, default_consistency_level,
udt_by_keyspace, plus models.default_keyspace which setup mutates) are
modelled as an explicit RegState record threaded through each operation.
External driver behaviour (Cluster construction, Cluster.connect,
Cluster.register_user_type, Session.execute) is modelled by a Driver
record of oracles.  Raised exceptions become Except results, and the
network side effects an operation performs are recorded in an event trace,
so that claims about "no network I/O" or "exactly one connect attempt" can
be stated as facts about the trace.
-/

namespace CqlEngine

/-- Opaque stand-in for a Python class object passed to register_udt. -/
abbrev Klass := String

/-- Keyword-argument dictionaries, modelled as insertion-ordered
association lists from key to an opaque value representation. -/
abbrev Options := List (String × String)

/-- Query bind parameters. -/
abbrev Params := List (String × String)

/-- Exceptions this layer can raise or propagate. -/
inductive Err where
  | cqlEngineException (msg : String)
  | typeError (msg : String)
  | exception (msg : String)
  | noHostAvailable
  | driverError (msg : String)
  deriving DecidableEq

/-- Observable external side effects: a network connect attempt
(Cluster(...).connect()), a register_user_type call against a cluster, and
a Session.execute submission. -/
inductive Ev where
  | connectAttempt (hosts : List String)
  | registerType (clusterId : Nat) (ks tn : String) (k : Klass)
  | sessionExec (sessionId : Nat)
  deriving DecidableEq

/-- The keyword dictionary stored in lazy_connect_args by setup: the four
keys setup writes into kwargs before arming, plus the caller pass-through
kwargs. -/
structure SetupKwargs where
  default_keyspace : String
  consistency : Nat
  lazy_connect : Bool
  retry_connect : Bool
  extra : Options
  deriving DecidableEq

/-- The SessionManager object: two dicts keyed by connection key. -/
structure SessionManager where
  _sessions : List (String × Nat)
  _clusters : List (String × Nat)
  deriving DecidableEq

/-- The value of the global session variable when set: either a single
driver Session or a SessionManager. -/
inductive SessVal where
  | sess (id : Nat)
  | manager (m : SessionManager)
  deriving DecidableEq

/-- The module-level mutable state of connection.py. -/
structure RegState where
  cluster : Option Nat
  session : Option SessVal
  lazy_connect_args : Option (List String × SetupKwargs)
  default_consistency_level : Nat
  udt_by_keyspace : List (String × List (String × Klass))
  models_default_keyspace : Option String
  deriving DecidableEq

/-- The state at module import time: all globals None, consistency ONE. -/
def initState : RegState :=
  { cluster := none
    session := none
    lazy_connect_args := none
    default_consistency_level := 1
    udt_by_keyspace := []
    models_default_keyspace := none }

/-- Outcome of a cluster.register_user_type call: success, the swallowed
UserTypeDoesNotExist, or some other propagated failure. -/
inductive RegOutcome where
  | ok
  | typeNotFound
  | err (e : Err)
  deriving DecidableEq

/-- Oracles for the external driver: fresh cluster ids, the result of
Cluster.connect, and the outcome of each register_user_type call. -/
structure Driver where
  newCluster : List String → Nat
  connect : Nat → Except Err Nat
  registerOutcome : Nat → String → String → Klass → RegOutcome

/-- Iteration-order oracle for the Python 2 dicts that
_register_known_types traverses: dict.items() yields every entry exactly
once, but in an unspecified hash-slot order that need not match insertion
order.  The oracle fixes the order in which the outer udt_by_keyspace
dict and each inner name-to-class dict are enumerated; the association
list itself only fixes the dict contents. -/
structure IterOrder where
  outer : List (String × List (String × Klass)) → List (String × List (String × Klass))
  inner : String → List (String × Klass) → List (String × Klass)

/-- A legal Python dict iteration: each items() enumeration yields a
permutation of the dict entries. -/
def IterOrder.Legal (io : IterOrder) : Prop :=
  (∀ u, (io.outer u).Perm u) ∧ (∀ ks m, (io.inner ks m).Perm m)

/-- Python dict assignment d[k] = v on an association list: replaces the
value in place when the key is present, appends otherwise. -/
def updateA (k : String) (v : α) : List (String × α) → List (String × α)
  | [] => [(k, v)]
  | (k2, v2) :: t => if k2 = k then (k, v) :: t else (k2, v2) :: updateA k v t

/-- Python dict .get(k) on an association list. -/
def lookupA (k : String) : List (String × α) → Option α
  | [] => none
  | (k2, v) :: t => if k2 = k then some v else lookupA k t

/-- udt_by_keyspace[keyspace][type_name] = klass, with the KeyError
fallback creating the inner dict, as in register_udt. -/
def udtInsert (ks tn : String) (k : Klass) :
    List (String × List (String × Klass)) → List (String × List (String × Klass))
  | [] => [(ks, [(tn, k)])]
  | (ks2, m) :: t =>
    if ks2 = ks then (ks2, updateA tn k m) :: t else (ks2, m) :: udtInsert ks tn k t

/-- Two-level lookup into the pending UDT map. -/
def lookupUdt (ks tn : String) (u : List (String × List (String × Klass))) : Option Klass :=
  match lookupA ks u with
  | none => none
  | some m => lookupA tn m

/-- A try: cluster.register_user_type(...) except UserTypeDoesNotExist:
pass block, as used by register_udt and _register_known_types. -/
def tryRegister (drv : Driver) (c : Nat) (ks tn : String) (k : Klass) : Except Err Unit :=
  match drv.registerOutcome c ks tn k with
  | .ok => .ok ()
  | .typeNotFound => .ok ()
  | .err e => .error e

/-- The inner loop of _register_known_types over the sequence of
(type name, class) pairs that one name_type_map.items() call yields, in
whatever order the dict iteration produced them: each yielded entry is
attempted; UserTypeDoesNotExist is swallowed and the loop continues; any
other exception propagates out of the loop. -/
def registerInner (drv : Driver) (c : Nat) (ks : String) :
    List (String × Klass) → List Ev × Except Err Unit
  | [] => ([], .ok ())
  | (tn, k) :: t =>
    match tryRegister drv c ks tn k with
    | .error e => ([.registerType c ks tn k], .error e)
    | .ok _ =>
      (.registerType c ks tn k :: (registerInner drv c ks t).1, (registerInner drv c ks t).2)

/-- The outer loop of _register_known_types over the yielded outer
entries: each yielded (keyspace, inner map) entry has its inner dict
enumerated in the oracle's order and replayed. -/
def registerKnownTypesLoop (drv : Driver) (io : IterOrder) (c : Nat) :
    List (String × List (String × Klass)) → List Ev × Except Err Unit
  | [] => ([], .ok ())
  | (ks, m) :: t =>
    match registerInner drv c ks (io.inner ks m) with
    | (evs, .error e) => (evs, .error e)
    | (evs, .ok _) =>
      (evs ++ (registerKnownTypesLoop drv io c t).1, (registerKnownTypesLoop drv io c t).2)

/-- _register_known_types(cluster): replays the whole pending map against
the given cluster.  Both traversals (udt_by_keyspace.items() and each
name_type_map.items()) are Python 2 dict iterations, so the entries are
processed in whatever order the iteration oracle yields them — not
necessarily registration order. -/
def registerKnownTypes (drv : Driver) (io : IterOrder) (c : Nat)
    (u : List (String × List (String × Klass))) : List Ev × Except Err Unit :=
  registerKnownTypesLoop drv io c (io.outer u)

/-- register_udt(keyspace, type_name, klass): records the mapping in
udt_by_keyspace, then, only when the global cluster is set, immediately
attempts registration against it, swallowing UserTypeDoesNotExist. -/
def register_udt (drv : Driver) (keyspace type_name : String) (klass : Klass)
    (st : RegState) : RegState × List Ev × Except Err Unit :=
  let st2 := { st with udt_by_keyspace := udtInsert keyspace type_name klass st.udt_by_keyspace }
  match st2.cluster with
  | none => (st2, [], .ok ())
  | some c =>
    match tryRegister drv c keyspace type_name klass with
    | .ok _ => (st2, [.registerType c keyspace type_name klass], .ok ())
    | .error e => (st2, [.registerType c keyspace type_name klass], .error e)

/-- The check for the rejected inline credential options in setup. -/
def kwHasCreds (kwargs : Options) : Bool :=
  kwargs.any (fun p => p.1 = "username") || kwargs.any (fun p => p.1 = "password")

/-- Message of the CQLEngineException raised for inline credentials. -/
def credsMsg : String :=
  "username and password are now handled by using the native drivers auth_provider"

/-- The TypeError message produced by the statement
cluster = cluster(hosts, **kwargs): it calls the value currently held by
the module-level cluster variable, which is either None or a Cluster
instance, and neither is callable. -/
def callClusterMsg : Option Nat → String
  | none => "NoneType object is not callable"
  | some _ => "Cluster object is not callable"

/-- setup(hosts, default_keyspace, consistency, lazy_connect,
retry_connect, **kwargs).  Faithful to the source: it rejects inline
credentials, stores models.default_keyspace and the default consistency
level, and either arms lazy_connect_args and returns, or falls through to
the eager path.  The eager path executes cluster = cluster(hosts,
**kwargs) outside of any try block; since the module only ever stores
None or a Cluster instance in the cluster global, that call always raises
TypeError, so the connect/NoHostAvailable/retry-arming code below it
(lines 125-139 of the source) is unreachable and no connect attempt is
ever made on this path. -/
def setup (hosts : List String) (default_keyspace : String) (consistency : Nat)
    (lazy_connect retry_connect : Bool) (kwargs : Options) (st : RegState) :
    RegState × List Ev × Except Err Unit :=
  if kwHasCreds kwargs then
    (st, [], .error (.cqlEngineException credsMsg))
  else
    let st2 := { st with
      models_default_keyspace := some default_keyspace
      default_consistency_level := consistency }
    if lazy_connect then
      ({ st2 with lazy_connect_args := some (hosts, ⟨default_keyspace, consistency, false, retry_connect, kwargs⟩) },
       [], .ok ())
    else
      (st2, [], .error (.typeError (callClusterMsg st2.cluster)))

/-- handle_lazy_connect(): when lazy_connect_args is armed it is cleared
first (the global is set to None before setup is invoked), then setup is
called with the stored hosts and keyword arguments; otherwise no-op. -/
def handle_lazy_connect (st : RegState) : RegState × List Ev × Except Err Unit :=
  match st.lazy_connect_args with
  | none => (st, [], .ok ())
  | some (hosts, kw) =>
    setup hosts kw.default_keyspace kw.consistency kw.lazy_connect kw.retry_connect kw.extra
      { st with lazy_connect_args := none }

/-- get_connection_key(clustername, keyspace): the composite routing key,
built by string formatting with a fixed double-underscore separator. -/
def get_connection_key (clustername keyspace : String) : String :=
  clustername ++ "__" ++ keyspace

/-- Message prefix of the exception raised by SessionManager.execute when
the key lookup finds no session. -/
def noSessionMsg : String := "No session found for the given session key"

/-- The TypeError message produced when the error-message concatenation
noSessionMsg + connection_key is evaluated with connection_key = None. -/
def noneConcatMsg : String := "cannot concatenate str and NoneType objects"

/-- SessionManager.execute(query, parameters, timeout, trace,
connection_key): looks the session up by connection_key in _sessions;
when absent it raises while building the message by concatenating the
prefix with the key (a TypeError when the key is None); when present it
delegates to that session.  The first component lists the session ids
actually invoked. -/
def SessionManager.execute (m : SessionManager)
    (runSession : Nat → String → Params → Option Nat → Bool → Nat)
    (query : String) (parameters : Params) (timeout : Option Nat) (trace : Bool)
    (connection_key : Option String) : List Nat × Except Err Nat :=
  match connection_key with
  | none => ([], .error (.typeError noneConcatMsg))
  | some k =>
    match lookupA k m._sessions with
    | none => ([], .error (.exception (noSessionMsg ++ k)))
    | some s => ([s], .ok (runSession s query parameters timeout trace))

/-- SessionManager.create_cluster_and_session(cluster_name, hosts): builds
Cluster(hosts) and connects; a connect failure propagates unchanged. -/
def SessionManager.create_cluster_and_session (drv : Driver) (cluster_name : String)
    (hosts : List String) : List Ev × Except Err (Nat × Nat) :=
  let c := drv.newCluster hosts
  match drv.connect c with
  | .error e => ([.connectAttempt hosts], .error e)
  | .ok s => ([.connectAttempt hosts], .ok (c, s))

/-- SessionManager.add_connection(hosts, keyspace, cluster_name): creates
the cluster and session, then stores both under the composite key,
overwriting any prior entry. -/
def SessionManager.add_connection (drv : Driver) (m : SessionManager)
    (hosts : List String) (keyspace cluster_name : String) :
    List Ev × Except Err SessionManager :=
  match SessionManager.create_cluster_and_session drv cluster_name hosts with
  | (evs, .error e) => (evs, .error e)
  | (evs, .ok (c, s)) =>
    (evs, .ok { _sessions := updateA (get_connection_key cluster_name keyspace) s m._sessions
                _clusters := updateA (get_connection_key cluster_name keyspace) c m._clusters })

/-- The inner loop of setup_connections over one cluster entry; on a
connect failure the exception propagates and the manager keeps the
connections added so far. -/
def addLoopInner (drv : Driver) (cluster_name : String) (m : SessionManager) :
    List (String × List String) → List Ev × SessionManager × Except Err Unit
  | [] => ([], m, .ok ())
  | (keyspace, hosts) :: t =>
    match SessionManager.add_connection drv m hosts keyspace cluster_name with
    | (evs, .error e) => (evs, m, .error e)
    | (evs, .ok m2) =>
      ((evs ++ (addLoopInner drv cluster_name m2 t).1),
       (addLoopInner drv cluster_name m2 t).2)

/-- The outer loop of setup_connections over the connections dict. -/
def addLoopOuter (drv : Driver) (m : SessionManager) :
    List (String × List (String × List String)) → List Ev × SessionManager × Except Err Unit
  | [] => ([], m, .ok ())
  | (cn, inner) :: t =>
    match addLoopInner drv cn m inner with
    | (evs, m2, .error e) => (evs, m2, .error e)
    | (evs, m2, .ok _) =>
      ((evs ++ (addLoopOuter drv m2 t).1), (addLoopOuter drv m2 t).2)

/-- setup_connections(connections): replaces the global session with a
fresh SessionManager, then adds a connection per (cluster, keyspace)
entry.  It touches no other global: cluster, lazy_connect_args and the
UDT map are left exactly as they were. -/
def setup_connections (drv : Driver)
    (connections : List (String × List (String × List String))) (st : RegState) :
    RegState × List Ev × Except Err Unit :=
  let r := addLoopOuter drv ⟨[], []⟩ connections
  ({ st with session := some (.manager r.2.1) }, r.1, r.2.2)

/-- default(): builds Cluster() for localhost, connects, stores the new
cluster and session in the globals, sets the row factory and replays the
whole pending UDT map against the new cluster (in the dict iteration
order the oracle yields). -/
def defaultSetup (drv : Driver) (io : IterOrder) (st : RegState) :
    RegState × List Ev × Except Err Unit :=
  let c := drv.newCluster []
  match drv.connect c with
  | .error e => ({ st with cluster := some c }, [.connectAttempt []], .error e)
  | .ok s =>
    ({ st with cluster := some c, session := some (.sess s) },
     .connectAttempt [] :: (registerKnownTypes drv io c st.udt_by_keyspace).1,
     (registerKnownTypes drv io c st.udt_by_keyspace).2)

/-- The three query shapes the dispatcher distinguishes: a driver-native
Statement (with its own consistency), a cqlengine BaseCQLStatement (with
a bind context), and a raw string. -/
inductive Query where
  | statement (qs : String) (cl : Option Nat)
  | baseCql (qs : String) (ctx : Params)
  | rawString (qs : String)
  deriving DecidableEq

/-- The query-normalization step of execute: a Statement passes through
unchanged; a BaseCQLStatement is rendered to a SimpleStatement at the
effective consistency level and its context replaces the parameters; a
raw string is wrapped in a SimpleStatement the same way. -/
def normalizeQuery (query : Query) (params : Option Params) (cl : Nat) :
    Query × Option Params :=
  match query with
  | .statement qs c => (.statement qs c, params)
  | .baseCql qs ctx => (.statement qs (some cl), some ctx)
  | .rawString qs => (.statement qs (some cl), params)

/-- Render a normalized query back to its query string for delegation. -/
def Query.text : Query → String
  | .statement qs _ => qs
  | .baseCql qs _ => qs
  | .rawString qs => qs

/-- The module-level execute dispatcher: resolves lazy connect, fails when
no session is configured, resolves the effective consistency level,
normalizes the query and submits it to the active session or manager. -/
def execute (drvRun : Nat → Query → Params → Option Nat → Option String → Nat)
    (mRun : Nat → String → Params → Option Nat → Bool → Nat)
    (query : Query) (params : Option Params) (consistency_level : Option Nat)
    (timeout : Option Nat) (connection_key : Option String) (st : RegState) :
    RegState × List Ev × Except Err Nat :=
  match handle_lazy_connect st with
  | (st2, evs, .error e) => (st2, evs, .error e)
  | (st2, evs, .ok _) =>
    match st2.session with
    | none =>
      (st2, evs,
       .error (.cqlEngineException "It is required to setup cqlengine before executing queries"))
    | some sv =>
      let cl := consistency_level.getD st2.default_consistency_level
      let q2 := (normalizeQuery query params cl).1
      let ps := ((normalizeQuery query params cl).2).getD []
      match sv with
      | .sess s => (st2, evs ++ [.sessionExec s], .ok (drvRun s q2 ps timeout connection_key))
      | .manager m =>
        let r := SessionManager.execute m mRun q2.text ps timeout false connection_key
        (st2, evs ++ r.1.map Ev.sessionExec, r.2)

/-- Predicate for counting connect attempts in a trace. -/
def isConnectAttempt : Ev → Bool
  | .connectAttempt _ => true
  | _ => false

/-- Whether a register outcome is a hard (non-swallowed) failure. -/
def RegOutcome.isHard : RegOutcome → Bool
  | .err _ => true
  | _ => false

/-- No entry of the pending UDT map produces a hard failure when replayed
against cluster c (swallowed type-not-found outcomes are allowed). -/
abbrev noHardFailures (drv : Driver) (c : Nat)
    (udts : List (String × List (String × Klass))) : Prop :=
  ∀ p ∈ udts, ∀ q ∈ p.2, (drv.registerOutcome c p.1 q.1 q.2).isHard = false

/-- The full replay trace of a pending UDT map against cluster c, keyspace
by keyspace, entries in recorded order. -/
def flattenRegs (c : Nat) : List (String × List (String × Klass)) → List Ev
  | [] => []
  | (ks, m) :: t => m.map (fun q => Ev.registerType c ks q.1 q.2) ++ flattenRegs c t

/-- The replay trace over a yielded outer enumeration, with each inner
dict enumerated by the iteration oracle. -/
def yieldedRegs (io : IterOrder) (c : Nat) :
    List (String × List (String × Klass)) → List Ev
  | [] => []
  | (ks, m) :: t =>
    (io.inner ks m).map (fun q => Ev.registerType c ks q.1 q.2) ++ yieldedRegs io c t

/-- A trivial single-session execute oracle for concrete runs. -/
def drvRun0 : Nat → Query → Params → Option Nat → Option String → Nat := fun _ _ _ _ _ => 0

/-- A trivial manager-session execute oracle for concrete runs. -/
def mRun0 : Nat → String → Params → Option Nat → Bool → Nat := fun _ _ _ _ _ => 0

/-- A driver oracle whose connects always succeed. -/
def drv0 : Driver :=
  { newCluster := fun _ => 0, connect := fun _ => .ok 0, registerOutcome := fun _ _ _ _ => .ok }

/-- A stored-kwargs fixture, as setup arms it for retry. -/
def kw0 : SetupKwargs := ⟨"ks", 1, false, true, []⟩

/-- A single-session-mode state with a cluster set and lazy args armed. -/
def stSingle : RegState :=
  { cluster := some 7, session := some (.sess 3), lazy_connect_args := some (["h1"], kw0),
    default_consistency_level := 1, udt_by_keyspace := [], models_default_keyspace := some "ks" }

/-- A manager-mode state fixture. -/
def stMgr : RegState := { initState with session := some (.manager ⟨[], []⟩) }

/-- A one-entry SessionManager fixture. -/
def mgr1 : SessionManager := ⟨[("c1__ks1", 4)], [("c1__ks1", 8)]⟩

/-- A driver fixture whose replay reports the first type as not yet
present (swallowed) and succeeds on every other type. -/
def drvReplay : Driver :=
  { newCluster := fun _ => 5, connect := fun _ => .ok 9,
    registerOutcome := fun _ _ tn _ => if tn = "t1" then .typeNotFound else .ok }

/-- A legal Python 2 iteration order that happens to yield each inner
dict in reversed insertion order — permitted, since dict iteration order
is unspecified. -/
def ioRev : IterOrder := { outer := fun u => u, inner := fun _ m => m.reverse }

/-- A fresh state with two UDTs recorded for keyspace ks. -/
def stUdts : RegState :=
  { initState with udt_by_keyspace := [("ks", [("t1", "K1"), ("t2", "K2")])] }

theorem string_data_append (a b : String) : (a ++ b).data = a.data ++ b.data := by
  cases a
  cases b
  rfl

theorem sep_data : "__".data = ['_', '_'] := rfl

theorem key_data (c k : String) :
    (get_connection_key c k).data = c.data ++ '_' :: '_' :: k.data := by
  simp [get_connection_key, string_data_append, sep_data, List.append_assoc]

theorem string_eq_of_data (a b : String) (h : a.data = b.data) : a = b := by
  cases a
  cases b
  exact congrArg String.mk h

theorem key_split (l1 l2 r1 r2 : List Char) (h1 : '_' ∉ l1) (h2 : '_' ∉ l2)
    (h : l1 ++ '_' :: r1 = l2 ++ '_' :: r2) : l1 = l2 ∧ r1 = r2 := by
  induction l1 generalizing l2 with
  | nil =>
    cases l2 with
    | nil =>
      simp only [List.nil_append, List.cons.injEq] at h
      exact ⟨rfl, h.2⟩
    | cons b t2 =>
      simp only [List.nil_append, List.cons_append, List.cons.injEq] at h
      exact absurd (by simp [← h.1]) h2
  | cons a t1 ih =>
    cases l2 with
    | nil =>
      simp only [List.nil_append, List.cons_append, List.cons.injEq] at h
      exact absurd (by simp [h.1]) h1
    | cons b t2 =>
      simp only [List.cons_append, List.cons.injEq] at h
      have h1t : '_' ∉ t1 := fun hm => h1 (List.mem_cons_of_mem _ hm)
      have h2t : '_' ∉ t2 := fun hm => h2 (List.mem_cons_of_mem _ hm)
      obtain ⟨he, ht⟩ := h
      obtain ⟨hl, hr⟩ := ih t2 h1t h2t ht
      exact ⟨by rw [he, hl], hr⟩

theorem lookup_updateA (k : String) (v : α) (l : List (String × α)) :
    lookupA k (updateA k v l) = some v := by
  induction l with
  | nil => simp [updateA, lookupA]
  | cons hd tl ih =>
    obtain ⟨k2, v2⟩ := hd
    by_cases hk : k2 = k
    · simp [updateA, hk, lookupA]
    · simp [updateA, hk, lookupA, ih]

theorem lookupUdt_insert (ks tn : String) (k : Klass)
    (u : List (String × List (String × Klass))) :
    lookupUdt ks tn (udtInsert ks tn k u) = some k := by
  induction u with
  | nil => simp [udtInsert, lookupUdt, lookupA, lookup_updateA]
  | cons hd tl ih =>
    obtain ⟨ks2, m⟩ := hd
    by_cases hk : ks2 = ks
    · simp [udtInsert, hk, lookupUdt, lookupA, lookup_updateA]
    · simpa [udtInsert, hk, lookupUdt, lookupA] using ih

theorem registerInner_complete (drv : Driver) (c : Nat) (ks : String)
    (l : List (String × Klass))
    (h : ∀ q ∈ l, (drv.registerOutcome c ks q.1 q.2).isHard = false) :
    registerInner drv c ks l = (l.map (fun q => Ev.registerType c ks q.1 q.2), .ok ()) := by
  induction l with
  | nil => rfl
  | cons hd tl ih =>
    obtain ⟨tn, k⟩ := hd
    have hh := h (tn, k) (List.mem_cons_self _ _)
    have ht : ∀ q ∈ tl, (drv.registerOutcome c ks q.1 q.2).isHard = false :=
      fun q hq => h q (List.mem_cons_of_mem _ hq)
    have hok : tryRegister drv c ks tn k = .ok () := by
      unfold tryRegister
      cases hreg : drv.registerOutcome c ks tn k with
      | ok => rfl
      | typeNotFound => rfl
      | err e =>
        rw [hreg] at hh
        simp [RegOutcome.isHard] at hh
    simp [registerInner, hok, ih ht]

theorem registerKnownTypesLoop_complete (drv : Driver) (io : IterOrder) (c : Nat)
    (l : List (String × List (String × Klass)))
    (h : ∀ p ∈ l, ∀ q ∈ io.inner p.1 p.2, (drv.registerOutcome c p.1 q.1 q.2).isHard = false) :
    registerKnownTypesLoop drv io c l = (yieldedRegs io c l, .ok ()) := by
  induction l with
  | nil => rfl
  | cons hd tl ih =>
    obtain ⟨ks, m⟩ := hd
    have hh : ∀ q ∈ io.inner ks m, (drv.registerOutcome c ks q.1 q.2).isHard = false :=
      fun q hq => h (ks, m) (List.mem_cons_self _ _) q hq
    have ht : ∀ p ∈ tl, ∀ q ∈ io.inner p.1 p.2,
        (drv.registerOutcome c p.1 q.1 q.2).isHard = false :=
      fun p hp => h p (List.mem_cons_of_mem _ hp)
    simp [registerKnownTypesLoop, registerInner_complete drv c ks (io.inner ks m) hh, ih ht,
      yieldedRegs]

theorem flattenRegs_eq_flatMap (c : Nat) (l : List (String × List (String × Klass))) :
    flattenRegs c l = l.flatMap (fun p => p.2.map (fun q => Ev.registerType c p.1 q.1 q.2)) := by
  induction l with
  | nil => rfl
  | cons hd tl ih =>
    obtain ⟨ks, m⟩ := hd
    simp [flattenRegs, ih]

theorem flattenRegs_perm_of_perm (c : Nat) {l1 l2 : List (String × List (String × Klass))}
    (h : l1.Perm l2) : (flattenRegs c l1).Perm (flattenRegs c l2) := by
  rw [flattenRegs_eq_flatMap, flattenRegs_eq_flatMap]
  exact h.flatMap_right _

theorem yieldedRegs_perm_flattenRegs (io : IterOrder) (c : Nat)
    (hinner : ∀ ks m, (io.inner ks m).Perm m) :
    ∀ l, (yieldedRegs io c l).Perm (flattenRegs c l) := by
  intro l
  induction l with
  | nil => exact List.Perm.refl _
  | cons hd tl ih =>
    obtain ⟨ks, m⟩ := hd
    simp only [yieldedRegs, flattenRegs]
    exact ((hinner ks m).map _).append ih

/-- C1: evaluating the code at the failing input of the claim.  The lazy
half holds: setup with lazy_connect=true produces an empty trace (no
network I/O) and arms the stored arguments.  But the subsequent execute
triggers zero connect attempts, not exactly one: lazy resolution invokes
setup, whose eager path raises a TypeError by calling the None-valued
cluster global before any connect can happen; the execute trace is empty
and the call fails. -/
theorem C1_lazy_setup_then_execute_triggers_no_connect :
    (setup ["h1"] "ks" 1 true false [] initState).2 = ([], .ok ()) ∧
    (setup ["h1"] "ks" 1 true false [] initState).1.lazy_connect_args =
      some (["h1"], ⟨"ks", 1, false, false, []⟩) ∧
    (execute drvRun0 mRun0 (.rawString "SELECT") none none none none
        (setup ["h1"] "ks" 1 true false [] initState).1).2 =
      ([], .error (.typeError (callClusterMsg none))) :=
  ⟨rfl, rfl, rfl⟩

/-- C2: handle_lazy_connect with armed args invokes setup on the state
whose lazy_connect_args is already cleared; when the stored kwargs carry
lazy_connect=false (as setup always stores them), the state after a
failed resolution still has no armed args, so a second failure cannot
re-arm unless setup itself re-arms; with nothing armed it is a no-op. -/
theorem C2_handle_lazy_connect_clears_first :
    (∀ st hosts kw, st.lazy_connect_args = some (hosts, kw) →
      handle_lazy_connect st =
        setup hosts kw.default_keyspace kw.consistency kw.lazy_connect kw.retry_connect
          kw.extra { st with lazy_connect_args := none }) ∧
    (∀ st hosts kw, st.lazy_connect_args = some (hosts, kw) → kw.lazy_connect = false →
      (handle_lazy_connect st).1.lazy_connect_args = none) ∧
    (∀ st, st.lazy_connect_args = none → handle_lazy_connect st = (st, [], .ok ())) := by
  refine ⟨?_, ?_, ?_⟩
  · intro st hosts kw h
    simp [handle_lazy_connect, h]
  · intro st hosts kw h hlc
    by_cases hcred : kwHasCreds kw.extra <;>
      simp [handle_lazy_connect, h, setup, hlc, hcred]
  · intro st h
    simp [handle_lazy_connect, h]

/-- Witness for C2 at a concrete armed state and a concrete unarmed one. -/
theorem C2_handle_lazy_connect_clears_first_witness :
    (handle_lazy_connect stSingle =
      setup ["h1"] kw0.default_keyspace kw0.consistency kw0.lazy_connect kw0.retry_connect
        kw0.extra { stSingle with lazy_connect_args := none }) ∧
    (handle_lazy_connect stSingle).1.lazy_connect_args = none ∧
    handle_lazy_connect initState = (initState, [], .ok ()) :=
  ⟨C2_handle_lazy_connect_clears_first.1 stSingle ["h1"] kw0 rfl,
   C2_handle_lazy_connect_clears_first.2.1 stSingle ["h1"] kw0 rfl rfl,
   C2_handle_lazy_connect_clears_first.2.2 initState rfl⟩

/-- C3 counterexample: switching from single-session mode to manager mode
via setup_connections does not replace the registry state wholesale:
starting from a single-session state stSingle holding a cluster and armed
lazy-connect args, the switch installs the SessionManager but the prior
cluster and the armed lazy-connect args survive unchanged. -/
theorem C3_mode_switch_keeps_old_state_counterexample :
    (setup_connections drv0 [] stSingle).1.session = some (.manager ⟨[], []⟩) ∧
    (setup_connections drv0 [] stSingle).1.cluster = some 7 ∧
    (setup_connections drv0 [] stSingle).1.lazy_connect_args = some (["h1"], kw0) :=
  ⟨rfl, rfl, rfl⟩

/-- C3 amended: the session global holds at most one of a single Session
or a SessionManager at a time, and setup_connections replaces only that
variable with a SessionManager; the cluster, lazy-connect args and UDT
map from the previous mode are left unchanged rather than replaced. -/
theorem C3_amended_mode_switch_replaces_only_session :
    (∀ drv conns st, ∃ m, (setup_connections drv conns st).1.session = some (.manager m)) ∧
    (∀ drv conns st,
      (setup_connections drv conns st).1.cluster = st.cluster ∧
      (setup_connections drv conns st).1.lazy_connect_args = st.lazy_connect_args ∧
      (setup_connections drv conns st).1.udt_by_keyspace = st.udt_by_keyspace) ∧
    (∀ (st : RegState) (m : SessionManager) (s : Nat),
      st.session = some (.manager m) → st.session ≠ some (.sess s)) := by
  refine ⟨?_, ?_, ?_⟩
  · intro drv conns st
    exact ⟨(addLoopOuter drv ⟨[], []⟩ conns).2.1, rfl⟩
  · intro drv conns st
    exact ⟨rfl, rfl, rfl⟩
  · intro st m s h
    simp [h]

/-- Witness for the amended C3 at a concrete state and mode switch. -/
theorem C3_amended_mode_switch_witness :
    (∃ m, (setup_connections drv0 [] stSingle).1.session = some (.manager m)) ∧
    ((setup_connections drv0 [] stSingle).1.cluster = stSingle.cluster ∧
     (setup_connections drv0 [] stSingle).1.lazy_connect_args = stSingle.lazy_connect_args ∧
     (setup_connections drv0 [] stSingle).1.udt_by_keyspace = stSingle.udt_by_keyspace) ∧
    stMgr.session ≠ some (.sess 3) :=
  ⟨C3_amended_mode_switch_replaces_only_session.1 drv0 [] stSingle,
   C3_amended_mode_switch_replaces_only_session.2.1 drv0 [] stSingle,
   C3_amended_mode_switch_replaces_only_session.2.2 stMgr ⟨[], []⟩ 3 rfl⟩

/-- C4 counterexample: Python 2 dict iteration order is unspecified, so
a legal iteration (here: each inner name-to-class dict yielded in
reversed insertion order, the outer dict as is) replays the two recorded
types of keyspace ks as t2 before t1 — not in registration order per
keyspace — even though both entries are replayed.  This refutes the
claimed registration-order guarantee: the code admits a legal execution
whose replay trace differs from the registration-order trace. -/
theorem C4_replay_order_counterexample :
    ioRev.Legal ∧
    (defaultSetup drvReplay ioRev stUdts).2 =
      (Ev.connectAttempt [] ::
        [Ev.registerType 5 "ks" "t2" "K2", Ev.registerType 5 "ks" "t1" "K1"], .ok ()) ∧
    (defaultSetup drvReplay ioRev stUdts).2.1 ≠
      Ev.connectAttempt [] :: flattenRegs (drvReplay.newCluster []) stUdts.udt_by_keyspace :=
  ⟨⟨fun u => List.Perm.refl u, fun _ m => m.reverse_perm⟩, rfl, by decide⟩

/-- C4 amended: a register_udt call made while no cluster is set records
the mapping (a later lookup finds it) and performs no replay I/O; once a
connection is established via default(), every recorded registration is
replayed against the new cluster exactly once — for every legal dict
iteration order the replay trace is a permutation of the recorded
entries — and swallowed type-not-found outcomes for some entries do not
block the replay of the remaining entries (only hard, non-swallowed
failures are excluded by the hypothesis).  The per-keyspace replay order
is the dict iteration order, which need not be registration order. -/
theorem C4_amended_udt_recorded_and_replayed :
    (∀ drv ks tn k st, st.cluster = none →
      (register_udt drv ks tn k st).1.udt_by_keyspace = udtInsert ks tn k st.udt_by_keyspace ∧
      lookupUdt ks tn (register_udt drv ks tn k st).1.udt_by_keyspace = some k ∧
      (register_udt drv ks tn k st).2 = ([], .ok ())) ∧
    (∀ drv io st s, drv.connect (drv.newCluster []) = .ok s → io.Legal →
      noHardFailures drv (drv.newCluster []) st.udt_by_keyspace →
      (defaultSetup drv io st).2.2 = .ok () ∧
      ((defaultSetup drv io st).2.1).Perm
        (Ev.connectAttempt [] :: flattenRegs (drv.newCluster []) st.udt_by_keyspace)) := by
  constructor
  · intro drv ks tn k st h
    refine ⟨?_, ?_, ?_⟩ <;> simp [register_udt, h, lookupUdt_insert]
  · intro drv io st s hconn hleg hnf
    have hyield : ∀ p ∈ io.outer st.udt_by_keyspace, ∀ q ∈ io.inner p.1 p.2,
        (drv.registerOutcome (drv.newCluster []) p.1 q.1 q.2).isHard = false := by
      intro p hp q hq
      exact hnf p ((hleg.1 st.udt_by_keyspace).mem_iff.mp hp) q
        ((hleg.2 p.1 p.2).mem_iff.mp hq)
    have hloop := registerKnownTypesLoop_complete drv io (drv.newCluster [])
      (io.outer st.udt_by_keyspace) hyield
    have hperm : (yieldedRegs io (drv.newCluster []) (io.outer st.udt_by_keyspace)).Perm
        (flattenRegs (drv.newCluster []) st.udt_by_keyspace) :=
      (yieldedRegs_perm_flattenRegs io (drv.newCluster []) hleg.2 _).trans
        (flattenRegs_perm_of_perm _ (hleg.1 st.udt_by_keyspace))
    constructor
    · simp [defaultSetup, hconn, registerKnownTypes, hloop]
    · simp only [defaultSetup, hconn, registerKnownTypes, hloop]
      exact hperm.cons _

/-- Witness for the amended C4: a registration recorded on the fresh
state, and a complete replay through default() under the reversed legal
iteration order, on a driver that reports the first type as not yet
present and still replays the second. -/
theorem C4_amended_udt_recorded_and_replayed_witness :
    initState.cluster = none ∧
    (register_udt drvReplay "ks" "t1" "K1" initState).2 = ([], .ok ()) ∧
    drvReplay.connect (drvReplay.newCluster []) = .ok 9 ∧
    ioRev.Legal ∧
    noHardFailures drvReplay (drvReplay.newCluster []) stUdts.udt_by_keyspace ∧
    ((defaultSetup drvReplay ioRev stUdts).2.2 = .ok () ∧
     ((defaultSetup drvReplay ioRev stUdts).2.1).Perm
       (Ev.connectAttempt [] :: flattenRegs (drvReplay.newCluster []) stUdts.udt_by_keyspace)) :=
  ⟨rfl, (C4_amended_udt_recorded_and_replayed.1 drvReplay "ks" "t1" "K1" initState rfl).2.2,
   rfl, ⟨fun u => List.Perm.refl u, fun _ m => m.reverse_perm⟩, by decide,
   C4_amended_udt_recorded_and_replayed.2 drvReplay ioRev stUdts 9 rfl
     ⟨fun u => List.Perm.refl u, fun _ m => m.reverse_perm⟩ (by decide)⟩

/-- C5: SessionManager.execute with a key K present in _sessions invokes
exactly the session stored under K (the invoked list is that singleton)
and returns its result unchanged; with an absent key it invokes no
session (no I/O) and raises the lookup exception whose message names the
missing key. -/
theorem C5_manager_execute_routes_by_key :
    (∀ m run q p t tr K s, lookupA K m._sessions = some s →
      SessionManager.execute m run q p t tr (some K) = ([s], .ok (run s q p t tr))) ∧
    (∀ m run q p t tr K, lookupA K m._sessions = none →
      SessionManager.execute m run q p t tr (some K) =
        ([], .error (.exception (noSessionMsg ++ K)))) := by
  constructor
  · intro m run q p t tr K s h
    simp [SessionManager.execute, h]
  · intro m run q p t tr K h
    simp [SessionManager.execute, h]

/-- Witness for C5 on a one-entry manager: the present key routes to its
session, the absent key fails naming the key. -/
theorem C5_manager_execute_routes_by_key_witness :
    lookupA "c1__ks1" mgr1._sessions = some 4 ∧
    SessionManager.execute mgr1 mRun0 "q" [] none false (some "c1__ks1") =
      ([4], .ok (mRun0 4 "q" [] none false)) ∧
    lookupA "nope" mgr1._sessions = none ∧
    SessionManager.execute mgr1 mRun0 "q" [] none false (some "nope") =
      ([], .error (.exception (noSessionMsg ++ "nope"))) :=
  ⟨rfl, C5_manager_execute_routes_by_key.1 mgr1 mRun0 "q" [] none false "c1__ks1" 4 rfl,
   rfl, C5_manager_execute_routes_by_key.2 mgr1 mRun0 "q" [] none false "nope" rfl⟩

/-- C6 counterexample: the distinct pairs ("c1_","ks1") and ("c1","_ks1")
are both made of legal alphanumeric/underscore identifiers yet map to the
same key, so distinct pairs over the domain identifiers do not always map
to distinct keys: the separator is ambiguous next to underscores. -/
theorem C6_separator_collision_counterexample :
    get_connection_key "c1_" "ks1" = get_connection_key "c1" "_ks1" ∧
    ("c1_", "ks1") ≠ (("c1", "_ks1") : String × String) := by
  exact ⟨by decide, by decide⟩

/-- C6 amended: get_connection_key is a pure deterministic function of
its two arguments; the key for ("c1","ks1") differs from the keys for
("c1_","ks1") and ("c1","_ks1"); and distinct pairs map to distinct keys
whenever the cluster names contain no underscore — with underscores
adjacent to the separator, distinct pairs can collide. -/
theorem C6_amended_key_distinct_and_injective :
    get_connection_key "c1" "ks1" ≠ get_connection_key "c1_" "ks1" ∧
    get_connection_key "c1" "ks1" ≠ get_connection_key "c1" "_ks1" ∧
    (∀ c1 k1 c2 k2 : String, '_' ∉ c1.data → '_' ∉ c2.data →
      get_connection_key c1 k1 = get_connection_key c2 k2 → c1 = c2 ∧ k1 = k2) := by
  refine ⟨by decide, by decide, ?_⟩
  intro c1 k1 c2 k2 h1 h2 h
  have hd := congrArg String.data h
  rw [key_data, key_data] at hd
  obtain ⟨hc, hk⟩ := key_split c1.data c2.data ('_' :: k1.data) ('_' :: k2.data) h1 h2 hd
  refine ⟨string_eq_of_data _ _ hc, string_eq_of_data _ _ ?_⟩
  simpa using hk

/-- Witness for the amended C6 on concrete underscore-free arguments. -/
theorem C6_amended_key_distinct_and_injective_witness :
    ('_' ∉ "ca".data) ∧ ("ca" = "ca" ∧ "ks" = "ks") :=
  ⟨by decide,
   C6_amended_key_distinct_and_injective.2.2 "ca" "ks" "ca" "ks" (by decide) (by decide) rfl⟩

/-- C7: evaluating the code at the failing input of the claim: setup with
lazy_connect=false and retry_connect=true on a fresh state raises the
TypeError produced by calling the None-valued cluster global; the trace
is empty, so no connect is ever attempted (total host unavailability can
never be observed on this path), and no LazyConnectArgs is armed despite
retry_connect=true. -/
theorem C7_eager_retry_never_reaches_connect :
    (setup ["h1"] "ks" 1 false true [] initState).2 =
      ([], .error (.typeError (callClusterMsg none))) ∧
    (setup ["h1"] "ks" 1 false true [] initState).1.lazy_connect_args = none :=
  ⟨rfl, rfl⟩

/-- C8: every call to setup whose kwargs include a username or password
entry fails immediately with the configuration CQLEngineException: the
state is returned completely unchanged (no registry mutation) and the
trace is empty (no connection attempt). -/
theorem C8_setup_rejects_inline_credentials
    (hosts : List String) (ks : String) (cons : Nat) (lc rc : Bool)
    (kwargs : Options) (st : RegState) (h : kwHasCreds kwargs = true) :
    setup hosts ks cons lc rc kwargs st = (st, [], .error (.cqlEngineException credsMsg)) := by
  simp [setup, h]

/-- Witness for C8 with a username entry in the kwargs. -/
theorem C8_setup_rejects_inline_credentials_witness :
    kwHasCreds [("username", "u")] = true ∧
    setup ["h1"] "ks" 1 false false [("username", "u")] initState =
      (initState, [], .error (.cqlEngineException credsMsg)) :=
  ⟨rfl,
   C8_setup_rejects_inline_credentials ["h1"] "ks" 1 false false [("username", "u")]
     initState rfl⟩

/-- C9: whenever the global cluster variable holds no Cluster object,
every eager setup call (without inline credentials) raises the TypeError
produced by calling None, with an empty trace — no connection is ever
attempted — and the global session is left unchanged. -/
theorem C9_eager_setup_calls_global_cluster_value
    (hosts : List String) (ks : String) (cons : Nat) (rc : Bool)
    (kwargs : Options) (st : RegState) (hc : st.cluster = none)
    (hk : kwHasCreds kwargs = false) :
    setup hosts ks cons false rc kwargs st =
      ({ st with models_default_keyspace := some ks, default_consistency_level := cons },
       [], .error (.typeError (callClusterMsg none))) ∧
    (setup hosts ks cons false rc kwargs st).1.session = st.session := by
  constructor
  · simp [setup, hk, hc]
  · simp [setup, hk]

/-- Witness for C9 at the fresh module state. -/
theorem C9_eager_setup_calls_global_cluster_value_witness :
    initState.cluster = none ∧ kwHasCreds [] = false ∧
    (setup ["h1"] "ks" 1 false false [] initState =
      ({ initState with models_default_keyspace := some "ks", default_consistency_level := 1 },
       [], .error (.typeError (callClusterMsg none))) ∧
     (setup ["h1"] "ks" 1 false false [] initState).1.session = initState.session) :=
  ⟨rfl, rfl,
   C9_eager_setup_calls_global_cluster_value ["h1"] "ks" 1 false [] initState rfl rfl⟩

/-- C10: for every SessionManager state, execute with connection_key None
(the default for an omitted argument) invokes no session and performs no
I/O: the lookup yields nothing and the error path raises the TypeError
coming from concatenating the message prefix with the None key. -/
theorem C10_manager_execute_none_key_error_path
    (m : SessionManager) (run : Nat → String → Params → Option Nat → Bool → Nat)
    (q : String) (p : Params) (t : Option Nat) (tr : Bool) :
    SessionManager.execute m run q p t tr none = ([], .error (.typeError noneConcatMsg)) :=
  rfl

end CqlEngine
